import Mathlib

/-!
Verification of the guess-the-number program (src/lib.rs, src/main.rs).
The Rust code is shallowly embedded: u32 values become Nat (the u32 parser
rejects overflow explicitly, so every value that survives parsing fits in
32 bits), fallible constructors return Except, and the console loop of
main becomes a state-passing function over the list of input lines.
-/

/-- Kinds of integer-parse failure, mirroring the cases of Rust
ParseIntError that str::parse::<u32> can produce: empty input, a character
that is not a digit (this is also what a minus sign yields for an unsigned
target), and positive overflow past u32::MAX. -/
inductive ParseIntErrorKind where
  | empty
  | invalidDigit
  | posOverflow
  deriving DecidableEq, Repr

/-- Embeds enum GuessError of src/lib.rs: InvalidRange, ParseError carrying
the underlying integer-parse error, and InvalidInput. -/
inductive GuessError where
  | InvalidRange
  | ParseError (e : ParseIntErrorKind)
  | InvalidInput
  deriving DecidableEq, Repr

/-- Embeds the ErrorHandler impl for GuessError (src/lib.rs lines 88-102):
the message printed for each error variant. -/
def handle_error_message (e : GuessError) : String :=
  match e with
  | GuessError.InvalidRange => "Error: The number must be between 1 and 100."
  | GuessError.ParseError _ => "Error: Please enter a valid number."
  | GuessError.InvalidInput => "Error: Invalid input, please try again."

/-- Embeds struct Guess of src/lib.rs: a wrapped guessed number. -/
structure Guess where
  value : Nat
  deriving DecidableEq, Repr

/-- Embeds Guess::new (src/lib.rs lines 200-205): reject values with
value < 1 or value > 100, otherwise wrap the value unchanged. -/
def Guess.new (value : Nat) : Except GuessError Guess :=
  if value < 1 ∨ value > 100 then Except.error GuessError.InvalidRange
  else Except.ok ⟨value⟩

/-- Embeds the Guessable impl for Guess (src/lib.rs lines 235-237):
self.value.cmp(other.value), the three-way comparison on u32. -/
def Guess.compare (self other : Guess) : Ordering :=
  if self.value < other.value then Ordering.lt
  else if other.value < self.value then Ordering.gt
  else Ordering.eq

/-- Embeds enum GuessResult of src/lib.rs. -/
inductive GuessResult where
  | TooSmall
  | TooBig
  | Correct
  deriving DecidableEq, Repr

/-- Embeds handle_guess (src/lib.rs lines 446-452), instantiated at the only
Guessable type of the program. -/
def handle_guess (guess : Guess) (secret_number : Guess) : GuessResult :=
  match guess.compare secret_number with
  | Ordering.lt => GuessResult.TooSmall
  | Ordering.gt => GuessResult.TooBig
  | Ordering.eq => GuessResult.Correct

/-- Embeds str::trim used by parse_input: drop leading and trailing
whitespace characters. -/
def rustTrim (s : String) : String :=
  ⟨((s.data.dropWhile Char.isWhitespace).reverse.dropWhile Char.isWhitespace).reverse⟩

/-- Digit-accumulation loop of Rust u32 parsing with radix 10: each
character must be an ASCII digit, and the running value may never exceed
u32::MAX = 4294967295, else the parse fails with posOverflow. -/
def parseDigits : List Char → Nat → Except ParseIntErrorKind Nat
  | [], acc => Except.ok acc
  | c :: rest, acc =>
    if c.isDigit then
      if acc * 10 + (c.toNat - '0'.toNat) > 4294967295 then
        Except.error ParseIntErrorKind.posOverflow
      else parseDigits rest (acc * 10 + (c.toNat - '0'.toNat))
    else Except.error ParseIntErrorKind.invalidDigit

/-- Sign handling of Rust u32 parsing: an empty string fails with empty; a
leading plus sign is stripped (but a lone plus sign fails with
invalidDigit); a minus sign is not a sign for an unsigned target and falls
through to the digit loop, where it fails as a non-digit. -/
def parseU32Chars (cs : List Char) : Except ParseIntErrorKind Nat :=
  match cs with
  | [] => Except.error ParseIntErrorKind.empty
  | c :: rest =>
    if c = '+' then
      if rest.isEmpty then Except.error ParseIntErrorKind.invalidDigit
      else parseDigits rest 0
    else parseDigits (c :: rest) 0

/-- Embeds str::parse::<u32> on a string: run the character-level parser on
the string contents. -/
def parseU32 (s : String) : Except ParseIntErrorKind Nat :=
  parseU32Chars s.data

/-- Embeds the Parsable impl for Guess (src/lib.rs lines 257-262): trim the
input, parse it as u32 mapping a parse failure to GuessError.ParseError,
then delegate to Guess.new. -/
def Guess.parse_input (input : String) : Except GuessError Guess :=
  match parseU32 (rustTrim input) with
  | Except.error e => Except.error (GuessError.ParseError e)
  | Except.ok n => Guess.new n

/-- Embeds struct GuessCount of src/lib.rs: the attempt counter. The Rust
field is a u32 whose overflow on increment is a program abort, not a wrap,
in checked builds; the non-aborting executions are modelled with Nat. -/
structure GuessCount where
  count : Nat
  deriving DecidableEq, Repr

/-- Embeds GuessCount::new (src/lib.rs lines 313-315): counter starts at 0. -/
def GuessCount.new : GuessCount := ⟨0⟩

/-- Embeds GuessCount::value (src/lib.rs lines 325-327). -/
def GuessCount.value (self : GuessCount) : Nat :=
  self.count

/-- Embeds the Incrementable impl for GuessCount (src/lib.rs lines
340-342): count += 1. -/
def GuessCount.increment (self : GuessCount) : GuessCount :=
  ⟨self.count + 1⟩

/-- Outcome of one call to get_guess (src/main.rs lines 386-396): reading a
line from stdin either fails, which the code turns into an abort via
expect("Failed to read line"), or yields a line that is passed to
Guess::parse_input. -/
inductive ReadOutcome where
  | fatal (msg : String)
  | result (r : Except GuessError Guess)
  deriving Repr

/-- Embeds get_guess (src/main.rs lines 386-396), with the stdin read
result made explicit: none models a failed read. -/
def get_guess (readLine : Option String) : ReadOutcome :=
  match readLine with
  | none => ReadOutcome.fatal "Failed to read line"
  | some s => ReadOutcome.result (Guess.parse_input s)

/-- What one iteration of the main loop reports for one input line: either
the outcome of an accepted guess or the error handled by handle_error. -/
inductive LineResult where
  | outcome (r : GuessResult)
  | failure (e : GuessError)
  deriving DecidableEq, Repr

/-- The mutable state owned by main (src/main.rs lines 470-505): the secret
number fixed for the session and the attempt counter. -/
structure SessionState where
  secret_number : Guess
  guess_count : GuessCount
  deriving DecidableEq, Repr

/-- One iteration of the loop in main (src/main.rs lines 481-504) on one
input line: a parse failure is reported and leaves the state unchanged
(the continue branch); an accepted guess increments the counter and is
compared to the secret. -/
def sessionStep (st : SessionState) (line : String) : LineResult × SessionState :=
  match Guess.parse_input line with
  | Except.error e => (LineResult.failure e, st)
  | Except.ok g =>
      (LineResult.outcome (handle_guess g st.secret_number),
       { st with guess_count := st.guess_count.increment })

/-- The loop of main run over a list of input lines: collects the per-line
results and the final state, stopping at the first Correct outcome (the
break branch); remaining lines are not consumed. -/
def sessionRun : SessionState → List String → List LineResult × SessionState
  | st, [] => ([], st)
  | st, line :: rest =>
    match sessionStep st line with
    | (LineResult.failure e, st2) =>
        (LineResult.failure e :: (sessionRun st2 rest).1, (sessionRun st2 rest).2)
    | (LineResult.outcome GuessResult.Correct, st2) =>
        ([LineResult.outcome GuessResult.Correct], st2)
    | (LineResult.outcome r, st2) =>
        (LineResult.outcome r :: (sessionRun st2 rest).1, (sessionRun st2 rest).2)

/-- C1: with secret 50 and input lines "30", "150", "abc", "70", "50" the
session produces TooSmall, an InvalidRange failure, a ParseError failure,
TooBig, Correct, and the final attempt counter is 3. -/
theorem session_end_to_end :
    sessionRun ⟨⟨50⟩, GuessCount.new⟩ ["30", "150", "abc", "70", "50"] =
      ([LineResult.outcome GuessResult.TooSmall,
        LineResult.failure GuessError.InvalidRange,
        LineResult.failure (GuessError.ParseError ParseIntErrorKind.invalidDigit),
        LineResult.outcome GuessResult.TooBig,
        LineResult.outcome GuessResult.Correct],
       ⟨⟨50⟩, ⟨3⟩⟩) := rfl

/-- C2: each iteration either fails to parse, reporting the failure and
leaving the state (secret and counter) unchanged, or accepts the guess and
increments the counter by exactly one regardless of the outcome; a Correct
outcome terminates the run with the current counter (Done is terminal). -/
theorem session_state_machine (st : SessionState) (line : String) (rest : List String) :
    (∀ e, Guess.parse_input line = Except.error e →
        sessionStep st line = (LineResult.failure e, st)) ∧
    (∀ g, Guess.parse_input line = Except.ok g →
        (sessionStep st line).1 = LineResult.outcome (handle_guess g st.secret_number) ∧
        (sessionStep st line).2.guess_count.value = st.guess_count.value + 1 ∧
        (sessionStep st line).2.secret_number = st.secret_number) ∧
    ((sessionStep st line).1 = LineResult.outcome GuessResult.Correct →
        sessionRun st (line :: rest) =
          ([LineResult.outcome GuessResult.Correct], (sessionStep st line).2)) := by
  refine ⟨?_, ?_, ?_⟩
  · intro e he
    simp [sessionStep, he]
  · intro g hg
    refine ⟨?_, ?_, ?_⟩ <;>
      simp [sessionStep, hg, GuessCount.increment, GuessCount.value]
  · intro hc
    have hpair : sessionStep st line =
        (LineResult.outcome GuessResult.Correct, (sessionStep st line).2) := by
      rw [← hc]
    rw [sessionRun, hpair]

/-- Witness for C2 at a concrete state and input: a correct guess on the
first line terminates the run with the incremented counter. -/
theorem session_state_machine_witness :
    sessionRun ⟨⟨50⟩, ⟨0⟩⟩ ["50", "30"] =
      ([LineResult.outcome GuessResult.Correct], ⟨⟨50⟩, ⟨1⟩⟩) := by
  have h := session_state_machine ⟨⟨50⟩, ⟨0⟩⟩ "50" ["30"]
  exact (h.2.2 rfl).trans rfl

/-- C3: parse_input trims the input and parses it as an integer; a parse
failure yields ParseError carrying the underlying cause, and a successful
parse delegates to Guess.new, propagating InvalidRange. Concretely "42"
parses to value 42, "150" fails with InvalidRange and "abc" fails with a
ParseError. -/
theorem parse_input_pipeline (input : String) :
    (∀ e, parseU32 (rustTrim input) = Except.error e →
        Guess.parse_input input = Except.error (GuessError.ParseError e)) ∧
    (∀ n, parseU32 (rustTrim input) = Except.ok n →
        Guess.parse_input input = Guess.new n) ∧
    Guess.parse_input "42" = Except.ok ⟨42⟩ ∧
    Guess.parse_input "150" = Except.error GuessError.InvalidRange ∧
    Guess.parse_input "abc" =
      Except.error (GuessError.ParseError ParseIntErrorKind.invalidDigit) := by
  refine ⟨?_, ?_, rfl, rfl, rfl⟩
  · intro e he
    simp [Guess.parse_input, he]
  · intro n hn
    simp [Guess.parse_input, hn]

/-- Witness for C3: the parse-failure branch evaluated at "abc". -/
theorem parse_input_pipeline_witness :
    Guess.parse_input "abc" =
      Except.error (GuessError.ParseError ParseIntErrorKind.invalidDigit) :=
  (parse_input_pipeline "abc").1 ParseIntErrorKind.invalidDigit rfl

/-- C4: handle_guess is the standard three-way comparison of the wrapped
values: TooSmall exactly when the candidate is below the secret, TooBig
exactly when above, Correct exactly when equal; in particular 30 against
50 is TooSmall, 70 against 50 is TooBig and 50 against 50 is Correct. -/
theorem handle_guess_three_way (g s : Guess) :
    (handle_guess g s = GuessResult.TooSmall ↔ g.value < s.value) ∧
    (handle_guess g s = GuessResult.TooBig ↔ s.value < g.value) ∧
    (handle_guess g s = GuessResult.Correct ↔ g.value = s.value) ∧
    handle_guess ⟨30⟩ ⟨50⟩ = GuessResult.TooSmall ∧
    handle_guess ⟨70⟩ ⟨50⟩ = GuessResult.TooBig ∧
    handle_guess ⟨50⟩ ⟨50⟩ = GuessResult.Correct := by
  refine ⟨?_, ?_, ?_, rfl, rfl, rfl⟩ <;>
    · simp only [handle_guess, Guess.compare]
      split_ifs with h1 h2 <;> simp <;> omega

/-- Witness for C4: the TooSmall direction evaluated at 30 against 50. -/
theorem handle_guess_three_way_witness :
    handle_guess ⟨30⟩ ⟨50⟩ = GuessResult.TooSmall ∧ (30 : Nat) < 50 :=
  ⟨(handle_guess_three_way ⟨30⟩ ⟨50⟩).1.mpr (by decide), by decide⟩

/-- C5: for every n in [1,100] the construction Guess.new n succeeds and
the value of the returned guess is n itself. -/
theorem guess_new_in_range (n : Nat) (h1 : 1 ≤ n) (h2 : n ≤ 100) :
    Guess.new n = Except.ok ⟨n⟩ ∧ (Guess.mk n).value = n := by
  refine ⟨?_, rfl⟩
  unfold Guess.new
  rw [if_neg (by omega : ¬(n < 1 ∨ n > 100))]

/-- Witness for C5 at n = 42. -/
theorem guess_new_in_range_witness :
    Guess.new 42 = Except.ok ⟨42⟩ ∧ (Guess.mk 42).value = 42 :=
  guess_new_in_range 42 (by decide) (by decide)

/-- C6: Guess.new fails with InvalidRange exactly when the input is outside
[1,100], and it never clamps: the result is either the exact input value
wrapped, or the InvalidRange error. -/
theorem guess_new_range_check (n : Nat) :
    (Guess.new n = Except.error GuessError.InvalidRange ↔ (n < 1 ∨ n > 100)) ∧
    (Guess.new n = Except.ok ⟨n⟩ ∨ Guess.new n = Except.error GuessError.InvalidRange) := by
  unfold Guess.new
  split_ifs with h
  · exact ⟨⟨fun _ => h, fun _ => rfl⟩, Or.inr rfl⟩
  · refine ⟨⟨fun hx => ?_, fun hx => absurd hx h⟩, Or.inl rfl⟩
    cases hx

/-- Witness for C6 at n = 150. -/
theorem guess_new_range_check_witness :
    Guess.new 150 = Except.error GuessError.InvalidRange :=
  (guess_new_range_check 150).1.mpr (by decide)

/-- C7: a fresh counter has value 0, every increment raises the value by
exactly 1, no increment ever decreases it, and after k increments from a
fresh counter the value is k. -/
theorem guess_count_invariant :
    GuessCount.new.value = 0 ∧
    (∀ c : GuessCount, c.increment.value = c.value + 1) ∧
    (∀ c : GuessCount, c.value ≤ c.increment.value) ∧
    (∀ k : Nat, (GuessCount.increment^[k] GuessCount.new).value = k) := by
  refine ⟨rfl, fun c => rfl, fun c => Nat.le_succ _, fun k => ?_⟩
  induction k with
  | zero => rfl
  | succ n ih =>
    rw [Function.iterate_succ_apply']
    simp [GuessCount.increment, GuessCount.value] at ih ⊢
    omega

/-- C8: an input error in an iteration is recoverable: the step reports the
failure and leaves secret and counter unchanged, the run continues with
the remaining lines, and every error has a non-empty human-readable
message; the only fatal error is a failed read, which get_guess turns into
an abort, while every successful read is passed to parse_input. -/
theorem session_error_recoverable (st : SessionState) (line : String)
    (rest : List String) (e : GuessError)
    (h : Guess.parse_input line = Except.error e) :
    sessionStep st line = (LineResult.failure e, st) ∧
    sessionRun st (line :: rest) =
      (LineResult.failure e :: (sessionRun st rest).1, (sessionRun st rest).2) ∧
    handle_error_message e ≠ "" ∧
    get_guess none = ReadOutcome.fatal "Failed to read line" ∧
    (∀ s, get_guess (some s) = ReadOutcome.result (Guess.parse_input s)) := by
  have hstep : sessionStep st line = (LineResult.failure e, st) := by
    simp [sessionStep, h]
  refine ⟨hstep, ?_, ?_, rfl, fun s => rfl⟩
  · rw [sessionRun, hstep]
  · cases e with
    | InvalidRange => decide
    | ParseError pe =>
        exact (by decide : ("Error: Please enter a valid number." : String) ≠ "")
    | InvalidInput => decide

/-- Witness for C8: the out-of-range line "150" is recoverable and leaves
the state unchanged. -/
theorem session_error_recoverable_witness :
    sessionStep ⟨⟨50⟩, ⟨0⟩⟩ "150" =
      (LineResult.failure GuessError.InvalidRange, ⟨⟨50⟩, ⟨0⟩⟩) :=
  (session_error_recoverable ⟨⟨50⟩, ⟨0⟩⟩ "150" [] GuessError.InvalidRange rfl).1

/-- C9: parse_input never produces the InvalidInput variant, and an input
that trims to the empty string (empty or all-whitespace) fails with a
ParseError, not with InvalidInput. -/
theorem parse_never_invalid_input (input : String) :
    Guess.parse_input input ≠ Except.error GuessError.InvalidInput ∧
    (rustTrim input = "" →
      Guess.parse_input input = Except.error (GuessError.ParseError ParseIntErrorKind.empty)) := by
  constructor
  · cases hp : parseU32 (rustTrim input) with
    | error e => simp [Guess.parse_input, hp]
    | ok n =>
      simp only [Guess.parse_input, hp, Guess.new]
      split_ifs <;> simp
  · intro h
    simp only [Guess.parse_input, h]
    rfl

/-- Witness for C9: the all-whitespace line evaluated concretely. -/
theorem parse_never_invalid_input_witness :
    Guess.parse_input "   " = Except.error (GuessError.ParseError ParseIntErrorKind.empty) :=
  (parse_never_invalid_input "   ").2 rfl

/-- C10: an input denoting a negative integer (after trimming, a minus sign
followed by digits not all zero) fails with a ParseError on the minus
sign, never with InvalidRange: the parse targets an unsigned integer and
the range check is never reached. -/
theorem parse_negative_is_parse_error (s : String) (ds : List Char)
    (_hne : ds ≠ []) (_hds : ∀ c ∈ ds, c.isDigit = true) (_hnz : ∃ c ∈ ds, c ≠ '0')
    (hdata : (rustTrim s).data = '-' :: ds) :
    Guess.parse_input s =
      Except.error (GuessError.ParseError ParseIntErrorKind.invalidDigit) := by
  have hp : parseU32 (rustTrim s) = Except.error ParseIntErrorKind.invalidDigit := by
    rw [parseU32, hdata, parseU32Chars]
    rw [if_neg (by decide : ¬('-' = '+'))]
    rw [parseDigits]
    rw [if_neg (by decide : ¬('-'.isDigit = true))]
  simp [Guess.parse_input, hp]

/-- Witness for C10 at the input "-5". -/
theorem parse_negative_is_parse_error_witness :
    Guess.parse_input "-5" =
      Except.error (GuessError.ParseError ParseIntErrorKind.invalidDigit) :=
  parse_negative_is_parse_error "-5" ['5'] (by decide)
    (by decide) ⟨'5', by decide, by decide⟩ rfl
